import Mathlib

/-!
A shallow embedding of the snowline extraction engine
(src/processing/interpolation.py and src/processing/pipeline.py),
with theorems checking the specified behaviour of the classifier,
the geometry mapper, the grid builder and the orchestrator.

Python floats are modelled as exact rationals, dates as integers
(days), pandas GeoDataFrames as lists of records, and numpy 2-D
arrays as a shape together with an entry function.  External library
numerics (scipy griddata, gaussian_filter, skimage find_contours)
are abstract parameters: the repository code only routes their
inputs and outputs, which is what the claims are about.
-/

/-- Geographic bounding box (src/config.py, class BoundingBox). -/
structure BoundingBox where
  min_lon : ℚ
  max_lon : ℚ
  min_lat : ℚ
  max_lat : ℚ
deriving DecidableEq

/-- One snow observation row (src/data/models.py, SnowObservation;
the processing path uses the date, coordinates and snow_present fields). -/
structure Observation where
  date : ℤ
  lon : ℚ
  lat : ℚ
  snow_present : Bool
deriving DecidableEq

/-- A numpy 2-D float array: a shape and an entry function. -/
structure Arr2 where
  rows : ℕ
  cols : ℕ
  ent : ℕ → ℕ → ℚ

/-- numpy arange: values start + k*step for 0 ≤ k < ceil((stop-start)/step). -/
def arange (start stop step : ℚ) : List ℚ :=
  (List.range (Int.toNat ⌈(stop - start) / step⌉)).map (fun n : ℕ => start + (n : ℚ) * step)

/-- numpy meshgrid of two 1-D arrays: grid_x repeats xs along rows,
grid_y repeats ys along columns; both of shape (len ys, len xs). -/
def meshgrid (xs ys : List ℚ) : Arr2 × Arr2 :=
  (Arr2.mk ys.length xs.length (fun _ j => xs.getD j 0),
   Arr2.mk ys.length xs.length (fun i _ => ys.getD i 0))

/-- numpy round: round half to even (banker's rounding), as an integer. -/
def nround (q : ℚ) : ℤ :=
  if q - (⌊q⌋ : ℚ) < 1 / 2 then ⌊q⌋
  else if (1 : ℚ) / 2 < q - (⌊q⌋ : ℚ) then ⌊q⌋ + 1
  else if Even ⌊q⌋ then ⌊q⌋ else ⌊q⌋ + 1

/-- The interpolation processor's configuration fields
(src/processing/interpolation.py, InterpolationProcessor.__init__). -/
structure InterpolationProcessor where
  bbox : BoundingBox
  grid_resolution : ℚ
  interpolation_method : String
  smoothing_sigma : ℚ

/-- InterpolationProcessor._create_grid: half-open arange over the bounding
box in each axis, then meshgrid. -/
def create_grid (p : InterpolationProcessor) : Arr2 × Arr2 :=
  meshgrid (arange p.bbox.min_lon p.bbox.max_lon p.grid_resolution)
    (arange p.bbox.min_lat p.bbox.max_lat p.grid_resolution)

/-- Modelled from the spec: scipy.interpolate.griddata is an external library
routine, not code of this repository.  Per section 4.2 of the spec, the
nearest method is defined at every cell, while for other methods a cell
outside the region where interpolation is well-defined receives the fill
value.  The interpolated value and the well-definedness region are abstract
parameters (interp, inDomain). -/
def griddata (method : String) (inDomain : List (ℚ × ℚ) → ℚ × ℚ → Bool)
    (interp : List ((ℚ × ℚ) × ℚ) → ℚ × ℚ → ℚ)
    (pts : List ((ℚ × ℚ) × ℚ)) (cell : ℚ × ℚ) (fill : ℚ) : ℚ :=
  if method = "nearest" then interp pts cell
  else if inDomain (pts.map Prod.fst) cell then interp pts cell
  else fill

/-- The (point, value) pairs handed to griddata: coordinates of each
observation with snow_present cast to 0.0 / 1.0
(numpy column_stack of geometry.x, geometry.y plus astype(float)). -/
def obs_points (obs : List Observation) : List ((ℚ × ℚ) × ℚ) :=
  obs.map (fun o => ((o.lon, o.lat), if o.snow_present then (1 : ℚ) else 0))

/-- InterpolationProcessor._interpolate_to_grid: griddata over the meshgrid
cells with the configured method and fill_value 0.0. -/
def interpolate_to_grid (p : InterpolationProcessor)
    (inDomain : List (ℚ × ℚ) → ℚ × ℚ → Bool)
    (interp : List ((ℚ × ℚ) × ℚ) → ℚ × ℚ → ℚ)
    (obs : List Observation) : Arr2 :=
  Arr2.mk (create_grid p).1.rows (create_grid p).1.cols
    (fun i j => griddata p.interpolation_method inDomain interp (obs_points obs)
      ((create_grid p).1.ent i j, (create_grid p).2.ent i j) 0)

/-- Shapely geometry as returned by the geometry mapper: a LineString or a
MultiLineString of coordinate lists. -/
inductive Geometry where
  | lineString (coords : List (ℚ × ℚ))
  | multiLineString (lines : List (List (ℚ × ℚ)))
deriving DecidableEq

/-- All coordinate pairs of a geometry. -/
def geomCoords : Geometry → List (ℚ × ℚ)
  | Geometry.lineString coords => coords
  | Geometry.multiLineString lines => lines.flatten

/-- Whether an optional geometry is a single-line (LineString) geometry. -/
def geomIsSingleLine : Option Geometry → Bool
  | some (Geometry.lineString _) => true
  | _ => false

/-- The inner loop of InterpolationProcessor._contours_to_geometry: round each
fractional (row, col) index, keep it only when the rounded indices are within
the grid shape, and map it through the coordinate arrays. -/
def contour_to_coords (gx gy : Arr2) (contour : List (ℚ × ℚ)) : List (ℚ × ℚ) :=
  contour.filterMap (fun c =>
    if 0 ≤ nround c.1 ∧ nround c.1 < (gy.rows : ℤ) ∧
        0 ≤ nround c.2 ∧ nround c.2 < (gx.cols : ℤ)
    then some (gx.ent 0 (nround c.2).toNat, gy.ent (nround c.1).toNat 0)
    else none)

/-- The surviving lines of _contours_to_geometry: per contour, the mapped
coordinates, kept when at least 2 coordinate pairs remain. -/
def surviving_lines (p : InterpolationProcessor)
    (contours : List (List (ℚ × ℚ))) : List (List (ℚ × ℚ)) :=
  contours.filterMap (fun contour =>
    if 2 ≤ (contour_to_coords (create_grid p).1 (create_grid p).2 contour).length
    then some (contour_to_coords (create_grid p).1 (create_grid p).2 contour)
    else none)

/-- InterpolationProcessor._contours_to_geometry: None on an empty contour
list, else collect surviving lines and return MultiLineString(lines) when any
survive, None otherwise. -/
def contours_to_geometry (p : InterpolationProcessor)
    (contours : List (List (ℚ × ℚ))) : Option Geometry :=
  if contours.isEmpty then none
  else if (surviving_lines p contours).isEmpty then none
  else some (Geometry.multiLineString (surviving_lines p contours))

/-- One row of a result GeoDataFrame; a missing reason column is reason none. -/
structure ResultRow where
  date : ℤ
  geometry : Option Geometry
  observation_count : ℕ
  reason : Option String
deriving DecidableEq

/-- InterpolationProcessor._create_empty_result: a single row with the target
date, null geometry, observation_count 0 and the given reason. -/
def create_empty_result (target_date : ℤ) (reason : String) : List ResultRow :=
  [ResultRow.mk target_date none 0 (some reason)]

/-- The per-date filter at the top of extract_snowline:
observations[observations['date'] == target_date]. -/
def date_obs (observations : List Observation) (target_date : ℤ) : List Observation :=
  observations.filter (fun o => o.date == target_date)

/-- InterpolationProcessor.extract_snowline.  The contoursOf parameter stands
for _extract_contour (external gaussian_filter plus find_contours at level
0.5 applied to the interpolated grid); inDomain and interp are the griddata
parameters. -/
def extract_snowline (p : InterpolationProcessor)
    (inDomain : List (ℚ × ℚ) → ℚ × ℚ → Bool)
    (interp : List ((ℚ × ℚ) × ℚ) → ℚ × ℚ → ℚ)
    (contoursOf : Arr2 → List (List (ℚ × ℚ)))
    (observations : List Observation) (target_date : ℤ) : List ResultRow :=
  if (date_obs observations target_date).length = 0 then []
  else if (date_obs observations target_date).all (fun o => o.snow_present) then
    create_empty_result target_date "complete_snow"
  else if !((date_obs observations target_date).any (fun o => o.snow_present)) then
    create_empty_result target_date "no_snow"
  else if (date_obs observations target_date).length < 3 then
    create_empty_result target_date "insufficient_data"
  else
    [ResultRow.mk target_date
      (contours_to_geometry p
        (contoursOf (interpolate_to_grid p inDomain interp
          (date_obs observations target_date))))
      (date_obs observations target_date).length none]

/-- Time configuration: inclusive date range (src/config.py, TimeConfig). -/
structure TimeConfig where
  start_date : ℤ
  end_date : ℤ

/-- Region configuration (src/config.py, RegionConfig). -/
structure RegionConfig where
  bounding_box : BoundingBox

/-- The configuration fields the pipeline reads (src/config.py, Config). -/
structure Config where
  region : RegionConfig
  time : TimeConfig

/-- Fuelled unfolding of the while loop in SnowlinePipeline._date_range. -/
def date_range_go (fuel : ℕ) (current end_date : ℤ) : List ℤ :=
  match fuel with
  | 0 => []
  | Nat.succ f =>
    if current ≤ end_date then current :: date_range_go f (current + 1) end_date
    else []

/-- SnowlinePipeline._date_range: yield each date from start_date while it is
at most end_date, stepping one day.  The fuel bounds the loop by the number
of dates it can emit. -/
def date_range (c : Config) : List ℤ :=
  date_range_go ((c.time.end_date - c.time.start_date).toNat + 1)
    c.time.start_date c.time.end_date

/-- The single filtering step in SnowlinePipeline.run: date within the
configured range and coordinates within the bounding box, all bounds
inclusive, by a boolean mask over the loaded table. -/
def filtered_data (c : Config) (data : List Observation) : List Observation :=
  data.filter (fun o =>
    decide (c.time.start_date ≤ o.date) && decide (o.date ≤ c.time.end_date) &&
    decide (c.region.bounding_box.min_lon ≤ o.lon) &&
    decide (o.lon ≤ c.region.bounding_box.max_lon) &&
    decide (c.region.bounding_box.min_lat ≤ o.lat) &&
    decide (o.lat ≤ c.region.bounding_box.max_lat))

/-- SnowlinePipeline.run: load is the data parameter, processor the
extract_snowline implementation; one entry per date of the range, in loop
order, each produced from the same filtered table. -/
def run (c : Config) (data : List Observation)
    (processor : List Observation → ℤ → List ResultRow) : List (ℤ × List ResultRow) :=
  (date_range c).map (fun target_date => (target_date, processor (filtered_data c data) target_date))

/-! Concrete instances used by counterexamples and witnesses. -/

/-- A 3x3-cell bounding box. -/
def bbox0 : BoundingBox := BoundingBox.mk 0 2 0 2

/-- A processor over bbox0 at resolution 1 with linear interpolation. -/
def p0 : InterpolationProcessor := InterpolationProcessor.mk bbox0 1 "linear" 1

/-- A trivial griddata domain oracle: no cell is in the well-defined region. -/
def dom0 : List (ℚ × ℚ) → ℚ × ℚ → Bool := fun _ _ => false

/-- A trivial griddata interpolant. -/
def itp0 : List ((ℚ × ℚ) × ℚ) → ℚ × ℚ → ℚ := fun _ _ => 0

/-- A contour oracle that finds no contour. -/
def co0 : Arr2 → List (List (ℚ × ℚ)) := fun _ => []

/-- A contour oracle that finds one contour with two integral points. -/
def co1 : Arr2 → List (List (ℚ × ℚ)) := fun _ => [[(0, 1), (1, 0)]]

/-- One observation on day 0 with snow present. -/
def obs0 : List Observation := [Observation.mk 0 1 1 true]

/-- Three observations on day 0 with mixed snow states. -/
def obs1 : List Observation :=
  [Observation.mk 0 0 0 true, Observation.mk 0 1 0 false, Observation.mk 0 1 1 true]

/-- A trivial processor for pipeline witnesses. -/
def proc0 : List Observation → ℤ → List ResultRow := fun _ _ => []

/-- A config over bbox0 with date range 0 to 2. -/
def c0 : Config := Config.mk (RegionConfig.mk bbox0) (TimeConfig.mk 0 2)

/-- Observations for the pipeline filtering witness: one in range and in the
box, one with its date out of range, one with its longitude out of the box. -/
def data0 : List Observation :=
  [Observation.mk 1 1 1 true, Observation.mk 5 1 1 false, Observation.mk 1 9 9 true]

/-! Evaluation helper lemmas for the concrete instances (rational arithmetic
does not reduce in the kernel, so these are proved once and shared). -/

lemma arange_zero_two_one : arange 0 2 1 = [0, 1] := by
  unfold arange
  have h2 : Int.toNat ⌈((2 : ℚ) - 0) / 1⌉ = 2 := by
    rw [show ⌈((2 : ℚ) - 0) / 1⌉ = 2 by norm_num]
    rfl
  rw [h2, show List.range 2 = [0, 1] from rfl]
  norm_num

lemma create_grid_p0 : create_grid p0 = meshgrid [0, 1] [0, 1] := by
  show meshgrid (arange 0 2 1) (arange 0 2 1) = _
  rw [arange_zero_two_one]

lemma nround_zero : nround 0 = 0 := by
  unfold nround
  norm_num

lemma nround_one : nround 1 = 1 := by
  unfold nround
  norm_num

lemma coords_eval :
    contour_to_coords (meshgrid [0, 1] [0, 1]).1 (meshgrid [0, 1] [0, 1]).2
      [(0, 1), (1, 0)] = [(1, 0), (0, 1)] := by
  unfold contour_to_coords
  simp [meshgrid, nround_zero, nround_one]

lemma geom_eval :
    contours_to_geometry p0 [[(0, 1), (1, 0)]] =
      some (Geometry.multiLineString [[(1, 0), (0, 1)]]) := by
  unfold contours_to_geometry surviving_lines
  rw [create_grid_p0]
  simp only [List.filterMap_cons, List.filterMap_nil, coords_eval]
  norm_num

/-! Theorems. -/

/-- C9: grid construction is deterministic and side-effect-free: any two
invocations of the grid builder with identical (bbox, resolution) inputs
produce identical coordinate arrays.  (The embedding of _create_grid reads
nothing but these two inputs, so equal inputs give equal grids even when the
other processor fields differ.) -/
theorem create_grid_deterministic (p q : InterpolationProcessor)
    (hb : p.bbox = q.bbox) (hr : p.grid_resolution = q.grid_resolution) :
    create_grid p = create_grid q := by
  simp [create_grid, hb, hr]

theorem create_grid_deterministic_witness :
    p0.bbox = p0.bbox ∧ create_grid p0 = create_grid p0 :=
  ⟨rfl, create_grid_deterministic p0 p0 rfl rfl⟩

/-- C7: for interpolation method linear or cubic, every grid cell outside the
region where interpolation is well-defined receives the fill value 0.0 in the
values grid produced by _interpolate_to_grid. -/
theorem interpolate_fill_outside_domain (p : InterpolationProcessor)
    (inDomain : List (ℚ × ℚ) → ℚ × ℚ → Bool)
    (interp : List ((ℚ × ℚ) × ℚ) → ℚ × ℚ → ℚ)
    (obs : List Observation) (i j : ℕ)
    (hm : p.interpolation_method = "linear" ∨ p.interpolation_method = "cubic")
    (hd : inDomain ((obs_points obs).map Prod.fst)
      ((create_grid p).1.ent i j, (create_grid p).2.ent i j) = false) :
    (interpolate_to_grid p inDomain interp obs).ent i j = 0 := by
  rcases hm with hm | hm <;> simp [interpolate_to_grid, griddata, hm, hd]

theorem interpolate_fill_outside_domain_witness :
    (p0.interpolation_method = "linear" ∨ p0.interpolation_method = "cubic") ∧
    (interpolate_to_grid p0 dom0 itp0 obs0).ent 0 0 = 0 :=
  ⟨Or.inl rfl, interpolate_fill_outside_domain p0 dom0 itp0 obs0 0 0 (Or.inl rfl) rfl⟩

/-- C3 counterexample: on a contour list where exactly one polyline survives
the rounding/bounds/minimum-length filtering, _contours_to_geometry returns a
multi-line geometry holding that single line, not a single-line geometry. -/
theorem contours_to_geometry_single_survivor_cex :
    contours_to_geometry p0 [[(0, 1), (1, 0)]] =
      some (Geometry.multiLineString [[(1, 0), (0, 1)]]) ∧
    geomIsSingleLine (contours_to_geometry p0 [[(0, 1), (1, 0)]]) = false := by
  refine ⟨geom_eval, ?_⟩
  rw [geom_eval]
  rfl

/-- C3 amended: whenever at least one polyline survives the filtering,
_contours_to_geometry returns a multi-line geometry composed of all surviving
lines (a multi-line with a single member when exactly one survives); it
returns absent when none survive. -/
theorem contours_to_geometry_multi_always (p : InterpolationProcessor)
    (contours : List (List (ℚ × ℚ))) :
    contours_to_geometry p contours =
      if (surviving_lines p contours).isEmpty then none
      else some (Geometry.multiLineString (surviving_lines p contours)) := by
  cases contours with
  | nil => simp [contours_to_geometry, surviving_lines]
  | cons c cs => simp [contours_to_geometry]

/-- C1: extract_snowline classifies a nonempty per-date observation subset in
order: uniformly snow_present gives reason complete_snow with absent geometry
for any count at least 1; uniformly not snow_present gives reason no_snow;
mixed states with fewer than 3 observations give reason insufficient_data;
otherwise it proceeds to interpolation and contouring with no reason set. -/
theorem extract_snowline_classifier_order
    (p : InterpolationProcessor)
    (inDomain : List (ℚ × ℚ) → ℚ × ℚ → Bool)
    (interp : List ((ℚ × ℚ) × ℚ) → ℚ × ℚ → ℚ)
    (contoursOf : Arr2 → List (List (ℚ × ℚ)))
    (observations : List Observation) (target_date : ℤ)
    (h : date_obs observations target_date ≠ []) :
    ((date_obs observations target_date).all (fun o => o.snow_present) = true →
      extract_snowline p inDomain interp contoursOf observations target_date =
        create_empty_result target_date "complete_snow") ∧
    ((date_obs observations target_date).all (fun o => !o.snow_present) = true →
      extract_snowline p inDomain interp contoursOf observations target_date =
        create_empty_result target_date "no_snow") ∧
    ((date_obs observations target_date).all (fun o => o.snow_present) = false →
      (date_obs observations target_date).any (fun o => o.snow_present) = true →
      (date_obs observations target_date).length < 3 →
      extract_snowline p inDomain interp contoursOf observations target_date =
        create_empty_result target_date "insufficient_data") ∧
    ((date_obs observations target_date).all (fun o => o.snow_present) = false →
      (date_obs observations target_date).any (fun o => o.snow_present) = true →
      3 ≤ (date_obs observations target_date).length →
      extract_snowline p inDomain interp contoursOf observations target_date =
        [ResultRow.mk target_date
          (contours_to_geometry p (contoursOf (interpolate_to_grid p inDomain interp
            (date_obs observations target_date))))
          (date_obs observations target_date).length none]) := by
  have hlen : ¬ (date_obs observations target_date).length = 0 := by
    simpa [List.length_eq_zero] using h
  refine ⟨?_, ?_, ?_, ?_⟩
  · intro hall
    simp [extract_snowline, hlen, hall]
  · intro hall
    have hany : (date_obs observations target_date).any (fun o => o.snow_present) = false := by
      rw [List.any_eq_false]
      intro o ho
      have h1 := List.all_eq_true.mp hall o ho
      simpa using h1
    have hnall : (date_obs observations target_date).all (fun o => o.snow_present) = false := by
      obtain ⟨x, hx⟩ := List.exists_mem_of_ne_nil _ h
      have h1 := List.all_eq_true.mp hall x hx
      rw [List.all_eq_false]
      exact ⟨x, hx, by simp at h1; simp [h1]⟩
    simp [extract_snowline, hlen, hnall, hany]
  · intro h1 h2 h3
    simp [extract_snowline, hlen, h1, h2, h3]
  · intro h1 h2 h3
    simp [extract_snowline, hlen, h1, h2, Nat.not_lt.mpr h3]

theorem extract_snowline_classifier_order_witness :
    date_obs obs0 0 ≠ [] ∧
    extract_snowline p0 dom0 itp0 co0 obs0 0 = create_empty_result 0 "complete_snow" :=
  ⟨by decide,
   (extract_snowline_classifier_order p0 dom0 itp0 co0 obs0 0 (by decide)).1 (by decide)⟩

/-- C2 amended: observation_count equals the per-date observation count only
on the interpolation branch; the labeled branches (complete_snow, no_snow,
insufficient_data) always record observation_count 0. -/
theorem observation_count_by_branch
    (p : InterpolationProcessor)
    (inDomain : List (ℚ × ℚ) → ℚ × ℚ → Bool)
    (interp : List ((ℚ × ℚ) × ℚ) → ℚ × ℚ → ℚ)
    (contoursOf : Arr2 → List (List (ℚ × ℚ)))
    (observations : List Observation) (target_date : ℤ)
    (h : date_obs observations target_date ≠ []) :
    (((date_obs observations target_date).all (fun o => o.snow_present) = true ∨
      (date_obs observations target_date).any (fun o => o.snow_present) = false ∨
      (date_obs observations target_date).length < 3) →
      (extract_snowline p inDomain interp contoursOf observations target_date).map
        (fun r => r.observation_count) = [0]) ∧
    ((date_obs observations target_date).all (fun o => o.snow_present) = false →
      (date_obs observations target_date).any (fun o => o.snow_present) = true →
      3 ≤ (date_obs observations target_date).length →
      (extract_snowline p inDomain interp contoursOf observations target_date).map
        (fun r => r.observation_count) =
        [(date_obs observations target_date).length]) := by
  have hlen : ¬ (date_obs observations target_date).length = 0 := by
    simpa [List.length_eq_zero] using h
  constructor
  · intro hdis
    by_cases h1 : (date_obs observations target_date).all (fun o => o.snow_present) = true
    · simp [extract_snowline, hlen, h1, create_empty_result]
    · have h1f := eq_false_of_ne_true h1
      by_cases h2 : (date_obs observations target_date).any (fun o => o.snow_present) = false
      · simp [extract_snowline, hlen, h1f, h2, create_empty_result]
      · have h2t := eq_true_of_ne_false h2
        have h3 : (date_obs observations target_date).length < 3 := by
          rcases hdis with ha | hb | hc
          · exact absurd ha h1
          · exact absurd hb h2
          · exact hc
        simp [extract_snowline, hlen, h1f, h2t, h3, create_empty_result]
  · intro h1 h2 h3
    simp [extract_snowline, hlen, h1, h2, Nat.not_lt.mpr h3]

theorem observation_count_by_branch_witness :
    date_obs obs1 0 ≠ [] ∧
    (extract_snowline p0 dom0 itp0 co0 obs1 0).map (fun r => r.observation_count) = [3] :=
  ⟨by decide,
   (observation_count_by_branch p0 dom0 itp0 co0 obs1 0 (by decide)).2
     (by decide) (by decide) (by decide)⟩

/-- C5: a date with an empty filtered observation subset yields a result with
zero rows, while each labeled classification (complete_snow, no_snow,
insufficient_data) yields exactly one row whose geometry is absent. -/
theorem empty_rows_vs_labeled_rows
    (p : InterpolationProcessor)
    (inDomain : List (ℚ × ℚ) → ℚ × ℚ → Bool)
    (interp : List ((ℚ × ℚ) × ℚ) → ℚ × ℚ → ℚ)
    (contoursOf : Arr2 → List (List (ℚ × ℚ)))
    (observations : List Observation) (target_date : ℤ) :
    (date_obs observations target_date = [] →
      extract_snowline p inDomain interp contoursOf observations target_date = []) ∧
    (date_obs observations target_date ≠ [] →
      ((date_obs observations target_date).all (fun o => o.snow_present) = true ∨
       (date_obs observations target_date).all (fun o => !o.snow_present) = true ∨
       (date_obs observations target_date).length < 3) →
      ∃ r, extract_snowline p inDomain interp contoursOf observations target_date =
        [ResultRow.mk target_date none 0 (some r)]) := by
  constructor
  · intro he
    simp [extract_snowline, he]
  · intro h hdis
    have hlen : ¬ (date_obs observations target_date).length = 0 := by
      simpa [List.length_eq_zero] using h
    by_cases h1 : (date_obs observations target_date).all (fun o => o.snow_present) = true
    · exact ⟨"complete_snow", by simp [extract_snowline, hlen, h1, create_empty_result]⟩
    · have h1f := eq_false_of_ne_true h1
      by_cases h2 : (date_obs observations target_date).any (fun o => o.snow_present) = false
      · exact ⟨"no_snow", by simp [extract_snowline, hlen, h1f, h2, create_empty_result]⟩
      · have h2t := eq_true_of_ne_false h2
        have h3 : (date_obs observations target_date).length < 3 := by
          rcases hdis with ha | hb | hc
          · exact absurd ha h1
          · exfalso
            apply h2
            rw [List.any_eq_false]
            intro o ho
            have hb1 := List.all_eq_true.mp hb o ho
            simpa using hb1
          · exact hc
        exact ⟨"insufficient_data",
          by simp [extract_snowline, hlen, h1f, h2t, h3, create_empty_result]⟩

theorem empty_rows_vs_labeled_rows_witness :
    extract_snowline p0 dom0 itp0 co0 obs0 1 = [] ∧
    ∃ r, extract_snowline p0 dom0 itp0 co0 obs0 0 = [ResultRow.mk 0 none 0 (some r)] :=
  ⟨(empty_rows_vs_labeled_rows p0 dom0 itp0 co0 obs0 1).1 (by decide),
   (empty_rows_vs_labeled_rows p0 dom0 itp0 co0 obs0 0).2 (by decide) (Or.inl (by decide))⟩

lemma date_range_go_of_lt (fuel : ℕ) (current e : ℤ) (h : e < current) :
    date_range_go fuel current e = [] := by
  cases fuel with
  | zero => rfl
  | succ f =>
    simp only [date_range_go]
    rw [if_neg (by omega)]

lemma date_range_go_eq (fuel : ℕ) : ∀ s e : ℤ, (e - s).toNat < fuel → s ≤ e →
    date_range_go fuel s e =
      (List.range ((e - s).toNat + 1)).map (fun n : ℕ => s + (n : ℤ)) := by
  induction fuel with
  | zero => intro s e hf _; omega
  | succ f ih =>
    intro s e hf hse
    simp only [date_range_go]
    rw [if_pos hse]
    by_cases h1 : s + 1 ≤ e
    · rw [ih (s + 1) e (by omega) h1]
      conv_rhs =>
        rw [show (e - s).toNat + 1 = ((e - (s + 1)).toNat + 1) + 1 by omega,
          List.range_succ_eq_map, List.map_cons, List.map_map]
      congr 1
      · simp
      · congr 1
        funext n
        simp only [Function.comp_apply, Nat.succ_eq_add_one]
        push_cast
        ring
    · have hse2 : s = e := by omega
      rw [date_range_go_of_lt f (s + 1) e (by omega)]
      subst hse2
      rw [show (s - s).toNat + 1 = 1 by omega, show List.range 1 = [0] from rfl]
      simp

/-- C4: for start_date at most end_date, run returns one entry per calendar
date from start_date to end_date inclusive, in ascending daily order, with
exactly (end_date - start_date) + 1 entries, regardless of the per-date
results. -/
theorem run_date_coverage (c : Config) (data : List Observation)
    (processor : List Observation → ℤ → List ResultRow)
    (h : c.time.start_date ≤ c.time.end_date) :
    (run c data processor).map Prod.fst =
      (List.range ((c.time.end_date - c.time.start_date).toNat + 1)).map
        (fun n : ℕ => c.time.start_date + (n : ℤ)) ∧
    (run c data processor).length =
      (c.time.end_date - c.time.start_date).toNat + 1 := by
  have hmap : (run c data processor).map Prod.fst = date_range c := by
    simp [run, List.map_map, Function.comp_def]
  have hdr : date_range c =
      (List.range ((c.time.end_date - c.time.start_date).toNat + 1)).map
        (fun n : ℕ => c.time.start_date + (n : ℤ)) := by
    unfold date_range
    exact date_range_go_eq _ _ _ (by omega) h
  refine ⟨hmap.trans hdr, ?_⟩
  have hl : (run c data processor).length = (date_range c).length := by
    simp [run]
  rw [hl, hdr]
  simp

theorem run_date_coverage_witness :
    c0.time.start_date ≤ c0.time.end_date ∧
    (run c0 [] proc0).map Prod.fst =
      (List.range ((c0.time.end_date - c0.time.start_date).toNat + 1)).map
        (fun n : ℕ => c0.time.start_date + (n : ℤ)) :=
  ⟨by decide, (run_date_coverage c0 [] proc0 (by decide)).1⟩

/-- C8: within run, the observation subset for a date d in the configured
range equals a pure query over the full loaded table - date equality AND
inclusive bounding-box containment - so it does not depend on which other
dates were processed; the loaded table itself is never mutated (every step of
the embedding is a pure List.filter derived from the source). -/
theorem per_date_filter_pure (c : Config) (data : List Observation) (d : ℤ)
    (h1 : c.time.start_date ≤ d) (h2 : d ≤ c.time.end_date) :
    date_obs (filtered_data c data) d =
      data.filter (fun o =>
        o.date == d &&
        decide (c.region.bounding_box.min_lon ≤ o.lon) &&
        decide (o.lon ≤ c.region.bounding_box.max_lon) &&
        decide (c.region.bounding_box.min_lat ≤ o.lat) &&
        decide (o.lat ≤ c.region.bounding_box.max_lat)) := by
  unfold date_obs filtered_data
  rw [List.filter_filter]
  apply List.filter_congr
  intro o _
  by_cases hd : o.date = d
  · subst hd
    simp [h1, h2]
  · have hbd : (o.date == d) = false := beq_eq_false_iff_ne.mpr hd
    simp [hbd]

theorem per_date_filter_pure_witness :
    (c0.time.start_date ≤ 1 ∧ (1 : ℤ) ≤ c0.time.end_date) ∧
    date_obs (filtered_data c0 data0) 1 = [Observation.mk 1 1 1 true] := by
  refine ⟨⟨by decide, by decide⟩, ?_⟩
  rw [per_date_filter_pure c0 data0 1 (by decide) (by decide)]
  unfold data0
  norm_num [List.filter_cons, c0, bbox0]

lemma arange_length (a b s : ℚ) :
    (arange a b s).length = Int.toNat ⌈(b - a) / s⌉ := by
  simp [arange]

lemma arange_getD (a b s : ℚ) (j : ℕ) (h : j < (arange a b s).length) :
    (arange a b s).getD j 0 = a + (j : ℚ) * s := by
  unfold arange at h ⊢
  rw [List.getD_eq_getElem _ _ h]
  simp

lemma nround_natCast (i : ℕ) : nround (i : ℚ) = (i : ℤ) := by
  unfold nround
  rw [show ⌊((i : ℕ) : ℚ)⌋ = (i : ℤ) from Int.floor_natCast i]
  rw [if_pos (by push_cast; norm_num)]

lemma contour_to_coords_cons_some (gx gy : Arr2) (c : ℚ × ℚ) (cs : List (ℚ × ℚ))
    (hcnd : 0 ≤ nround c.1 ∧ nround c.1 < (gy.rows : ℤ) ∧
      0 ≤ nround c.2 ∧ nround c.2 < (gx.cols : ℤ)) :
    contour_to_coords gx gy (c :: cs) =
      (gx.ent 0 (nround c.2).toNat, gy.ent (nround c.1).toNat 0) ::
        contour_to_coords gx gy cs := by
  unfold contour_to_coords
  simp only [List.filterMap_cons]
  rw [if_pos hcnd]

/-- C6: a polyline whose fractional (row, col) grid indices are all exact
integers within the grid bounds is mapped by the Geometry Mapper exactly to
the corresponding coordinate values stored in the grid coordinate arrays
(min + index * resolution), with no point dropped and no drift. -/
theorem mapper_roundtrip_integral (p : InterpolationProcessor)
    (contour : List (ℚ × ℚ))
    (h : ∀ c ∈ contour, ∃ i j : ℕ,
      i < (create_grid p).2.rows ∧ j < (create_grid p).1.cols ∧
      c = ((i : ℚ), (j : ℚ))) :
    contour_to_coords (create_grid p).1 (create_grid p).2 contour =
      contour.map (fun c =>
        (p.bbox.min_lon + c.2 * p.grid_resolution,
         p.bbox.min_lat + c.1 * p.grid_resolution)) := by
  induction contour with
  | nil => rfl
  | cons c cs ih =>
    obtain ⟨i, j, hi, hj, hc⟩ := h c (List.mem_cons_self c cs)
    have ht := ih (fun x hx => h x (List.mem_cons_of_mem c hx))
    subst hc
    have hri : nround ((i : ℕ) : ℚ) = (i : ℤ) := nround_natCast i
    have hrj : nround ((j : ℕ) : ℚ) = (j : ℤ) := nround_natCast j
    have hcnd : 0 ≤ nround (((i : ℚ), (j : ℚ)) : ℚ × ℚ).1 ∧
        nround (((i : ℚ), (j : ℚ)) : ℚ × ℚ).1 < ((create_grid p).2.rows : ℤ) ∧
        0 ≤ nround (((i : ℚ), (j : ℚ)) : ℚ × ℚ).2 ∧
        nround (((i : ℚ), (j : ℚ)) : ℚ × ℚ).2 < ((create_grid p).1.cols : ℤ) := by
      refine ⟨?_, ?_, ?_, ?_⟩
      · show 0 ≤ nround ((i : ℕ) : ℚ)
        rw [hri]; exact Int.natCast_nonneg i
      · show nround ((i : ℕ) : ℚ) < _
        rw [hri]; exact_mod_cast hi
      · show 0 ≤ nround ((j : ℕ) : ℚ)
        rw [hrj]; exact Int.natCast_nonneg j
      · show nround ((j : ℕ) : ℚ) < _
        rw [hrj]; exact_mod_cast hj
    rw [contour_to_coords_cons_some _ _ _ _ hcnd, ht, List.map_cons]
    congr 1
    show ((create_grid p).1.ent 0 (nround ((j : ℕ) : ℚ)).toNat,
      (create_grid p).2.ent (nround ((i : ℕ) : ℚ)).toNat 0) = _
    rw [hri, hrj]
    show ((arange p.bbox.min_lon p.bbox.max_lon p.grid_resolution).getD j 0,
      (arange p.bbox.min_lat p.bbox.max_lat p.grid_resolution).getD i 0) = _
    rw [arange_getD _ _ _ j hj, arange_getD _ _ _ i hi]

theorem mapper_roundtrip_integral_witness :
    contour_to_coords (create_grid p0).1 (create_grid p0).2 [(0, 1), (1, 0)] =
      ([(0, 1), (1, 0)] : List (ℚ × ℚ)).map (fun c =>
        (p0.bbox.min_lon + c.2 * p0.grid_resolution,
         p0.bbox.min_lat + c.1 * p0.grid_resolution)) := by
  apply mapper_roundtrip_integral
  intro c hc
  rw [create_grid_p0]
  simp only [List.mem_cons, List.not_mem_nil, or_false] at hc
  rcases hc with rfl | rfl
  · exact ⟨0, 1, by norm_num [meshgrid], by norm_num [meshgrid], by norm_num [Prod.ext_iff]⟩
  · exact ⟨1, 0, by norm_num [meshgrid], by norm_num [meshgrid], by norm_num [Prod.ext_iff]⟩

lemma arange_getD_bounds (a b s : ℚ) (hs : 0 < s) (j : ℕ)
    (h : j < (arange a b s).length) :
    a ≤ (arange a b s).getD j 0 ∧ (arange a b s).getD j 0 < b := by
  rw [arange_getD a b s j h]
  constructor
  · have hnn : 0 ≤ (j : ℚ) * s := mul_nonneg (by positivity) hs.le
    linarith
  · rw [arange_length] at h
    have hj1 : (j : ℤ) + 1 ≤ ⌈(b - a) / s⌉ := by omega
    have hceil : ((⌈(b - a) / s⌉ : ℤ) : ℚ) < (b - a) / s + 1 := Int.ceil_lt_add_one _
    have hjq : ((j : ℤ) : ℚ) + 1 ≤ ((⌈(b - a) / s⌉ : ℤ) : ℚ) := by exact_mod_cast hj1
    have hlt : (j : ℚ) < (b - a) / s := by push_cast at hjq; linarith
    have hms : (j : ℚ) * s < b - a := (lt_div_iff₀ hs).mp hlt
    linarith

lemma surviving_point_bounds (p : InterpolationProcessor)
    (hres : 0 < p.grid_resolution)
    (contours : List (List (ℚ × ℚ))) (line : List (ℚ × ℚ))
    (hline : line ∈ surviving_lines p contours)
    (pt : ℚ × ℚ) (hpt : pt ∈ line) :
    p.bbox.min_lon ≤ pt.1 ∧ pt.1 < p.bbox.max_lon ∧
    p.bbox.min_lat ≤ pt.2 ∧ pt.2 < p.bbox.max_lat := by
  unfold surviving_lines at hline
  rw [List.mem_filterMap] at hline
  obtain ⟨contour, hcm, hsome⟩ := hline
  split at hsome
  · obtain rfl : contour_to_coords (create_grid p).1 (create_grid p).2 contour = line :=
      by injection hsome
    unfold contour_to_coords at hpt
    rw [List.mem_filterMap] at hpt
    obtain ⟨c, hcmem, hc⟩ := hpt
    split at hc
    case isTrue hcond =>
      obtain ⟨h1, h2, h3, h4⟩ := hcond
      obtain rfl : ((create_grid p).1.ent 0 (nround c.2).toNat,
          (create_grid p).2.ent (nround c.1).toNat 0) = pt := by injection hc
      have hxb := arange_getD_bounds p.bbox.min_lon p.bbox.max_lon p.grid_resolution
        hres (nround c.2).toNat (by
          have : (create_grid p).1.cols =
            (arange p.bbox.min_lon p.bbox.max_lon p.grid_resolution).length := rfl
          omega)
      have hyb := arange_getD_bounds p.bbox.min_lat p.bbox.max_lat p.grid_resolution
        hres (nround c.1).toNat (by
          have : (create_grid p).2.rows =
            (arange p.bbox.min_lat p.bbox.max_lat p.grid_resolution).length := rfl
          omega)
      exact ⟨hxb.1, hxb.2, hyb.1, hyb.2⟩
    case isFalse => cases hc
  · cases hsome

/-- C10: every coordinate pair of every geometry returned by extract_snowline
lies within the configured bounding box: longitude in [min_lon, max_lon) and
latitude in [min_lat, max_lat), for any positive grid resolution, because
surviving contour points are mapped only through the half-open arange
coordinate arrays. -/
theorem extract_geometry_within_bbox (p : InterpolationProcessor)
    (inDomain : List (ℚ × ℚ) → ℚ × ℚ → Bool)
    (interp : List ((ℚ × ℚ) × ℚ) → ℚ × ℚ → ℚ)
    (contoursOf : Arr2 → List (List (ℚ × ℚ)))
    (observations : List Observation) (target_date : ℤ)
    (hres : 0 < p.grid_resolution) (row : ResultRow)
    (hrow : row ∈ extract_snowline p inDomain interp contoursOf observations target_date)
    (g : Geometry) (hg : row.geometry = some g)
    (pt : ℚ × ℚ) (hpt : pt ∈ geomCoords g) :
    p.bbox.min_lon ≤ pt.1 ∧ pt.1 < p.bbox.max_lon ∧
    p.bbox.min_lat ≤ pt.2 ∧ pt.2 < p.bbox.max_lat := by
  unfold extract_snowline at hrow
  split at hrow
  · simp at hrow
  split at hrow
  · simp [create_empty_result] at hrow
    subst hrow
    simp at hg
  split at hrow
  · simp [create_empty_result] at hrow
    subst hrow
    simp at hg
  split at hrow
  · simp [create_empty_result] at hrow
    subst hrow
    simp at hg
  · simp at hrow
    subst hrow
    simp only at hg
    unfold contours_to_geometry at hg
    split at hg
    · cases hg
    split at hg
    · cases hg
    obtain rfl : Geometry.multiLineString (surviving_lines p
        (contoursOf (interpolate_to_grid p inDomain interp
          (date_obs observations target_date)))) = g := by injection hg
    simp only [geomCoords, List.mem_flatten] at hpt
    obtain ⟨line, hline, hp⟩ := hpt
    exact surviving_point_bounds p hres _ line hline pt hp

theorem extract_geometry_within_bbox_witness :
    p0.bbox.min_lon ≤ (1 : ℚ) ∧ (1 : ℚ) < p0.bbox.max_lon ∧
    p0.bbox.min_lat ≤ (0 : ℚ) ∧ (0 : ℚ) < p0.bbox.max_lat := by
  have hev : extract_snowline p0 dom0 itp0 co1 obs1 0 =
      [ResultRow.mk 0 (some (Geometry.multiLineString [[(1, 0), (0, 1)]])) 3 none] := by
    unfold extract_snowline
    rw [if_neg (by decide), if_neg (by decide), if_neg (by decide), if_neg (by decide)]
    rw [show co1 (interpolate_to_grid p0 dom0 itp0 (date_obs obs1 0)) =
      [[(0, 1), (1, 0)]] from rfl]
    rw [geom_eval, show (date_obs obs1 0).length = 3 from rfl]
  refine extract_geometry_within_bbox p0 dom0 itp0 co1 obs1 0 (by norm_num [p0])
    (ResultRow.mk 0 (some (Geometry.multiLineString [[(1, 0), (0, 1)]])) 3 none)
    ?_ (Geometry.multiLineString [[(1, 0), (0, 1)]]) rfl (1, 0) ?_
  · rw [hev]
    exact List.Mem.head _
  · exact List.Mem.head _

/-- C2 counterexample: a date classified complete_snow from one observation
yields a row whose observation_count is 0, not the observation count 1. -/
theorem observation_count_labeled_zero_cex :
    extract_snowline p0 dom0 itp0 co0 obs0 0 =
      [ResultRow.mk 0 none 0 (some "complete_snow")] ∧
    (date_obs obs0 0).length = 1 :=
  ⟨rfl, rfl⟩
